import Mathlib

/-!
Verification development for the network health-check engine in
`scripts/network-health-monitor.py`.

The engine is embedded shallowly:

* Python dictionaries for endpoint descriptors become a structure whose
  optional fields are `Option`-valued; `d[k]` on a missing key (Python
  `KeyError`) becomes an `Except.error`, and `d.get(k, v)` becomes
  `Option.getD`.
* Wall-clock latencies (Python floats, milliseconds) are modelled as `ℚ`.
* Network effects are abstracted into an `Env` record of oracle functions:
  each strategy consults the oracle with exactly the arguments the Python
  code passes to `requests.get` / `socket.connect_ex` / `subprocess.run`,
  and the oracle answers with the outcome (response, timeout, raised
  exception, …) that the corresponding Python call produced.
* Logging, file output and the `timestamp` field (wall-clock metadata) are
  not modelled; no verified property mentions them.
-/

namespace NetworkHealthMonitor

/-- Health states produced by the script (the Python code uses the strings
`"healthy"`, `"warning"`, `"critical"`, `"unknown"`). -/
inductive Status where
  | healthy
  | warning
  | critical
  | unknown
deriving DecidableEq, Repr

/-- An endpoint descriptor: one entry of the JSON endpoint list consumed by
`HealthChecker`.  `name` is accessed with `endpoint['name']` on every code
path, so it is a plain field; the remaining keys are read either with
`endpoint[k]` (may raise `KeyError`) or `endpoint.get(k, default)`, so they
are `Option`-valued here. -/
structure Endpoint where
  name : String
  type : Option String := none
  url : Option String := none
  host : Option String := none
  port : Option Nat := none
  timeout : Option ℚ := none
  critical : Option Bool := none
deriving DecidableEq, Repr

/-- One probe result dictionary, as built by the check functions.  Keys that
some branches omit (`response_time_ms`, `http_code`) are `Option`-valued;
`critical` is the flag added by `run_checks` (absent from the dict a strategy
returns, hence defaulted to `false` until `run_checks` sets it). -/
structure ProbeResult where
  name : String
  type : String
  status : Status
  available : Bool
  response_time_ms : Option ℚ := none
  http_code : Option Nat := none
  details : String
  critical : Bool := false
deriving DecidableEq, Repr

/-- Threshold `RESPONSE_TIME_WARN = 1000` (milliseconds), line 129. -/
def RESPONSE_TIME_WARN : ℚ := 1000

/-- Threshold `RESPONSE_TIME_CRITICAL = 3000` (milliseconds), line 130. -/
def RESPONSE_TIME_CRITICAL : ℚ := 3000

/-- Python's `round(x, 2)` on the nonnegative latencies the script measures
(ties at the third decimal aside, which no verified property touches). -/
def round2 (q : ℚ) : ℚ := (round (q * 100) : ℤ) / 100

/-- Outcome of the `requests.get(url, timeout=timeout, allow_redirects=True)`
call in `check_http`: a response, or one of the exception classes the code
catches (`requests.exceptions.Timeout`, `requests.exceptions.ConnectionError`,
generic `Exception`). -/
inductive HttpOutcome where
  | response (status_code : Nat) (elapsed_ms : ℚ)
  | timeout
  | connectionError (msg : String)
  | otherError (msg : String)
deriving DecidableEq, Repr

/-- Outcome of the `socket` connection attempt in `check_tcp`:
`connect_ex` returned `result` after `elapsed_ms`, or `socket.gaierror`
was raised, or some other exception was raised. -/
inductive TcpOutcome where
  | connect (result : Int) (elapsed_ms : ℚ)
  | gaiError
  | otherError (msg : String)
deriving DecidableEq, Repr

/-- Outcome of the `subprocess.run(['ping', ...])` call in `check_ping`.
`ran rc avg` models a completed run with return code `rc` whose stdout,
fed through the parsing of lines 306–313 (find the `avg` line, take the
fifth `/`-separated field, `float(...)`), yields `some` average RTT, or
`none` when no `avg` line exists or parsing raises (both fall back to
`avg_ms = 0` in the code).  `timeoutExpired` models
`subprocess.TimeoutExpired`; `otherError` any other exception. -/
inductive PingOutcome where
  | ran (returncode : Int) (avg : Option ℚ)
  | timeoutExpired
  | otherError (msg : String)
deriving DecidableEq, Repr

/-- The network environment for one cycle: what each underlying call
returns, as a function of the arguments the Python code passes to it. -/
structure Env where
  http : String → ℚ → HttpOutcome
  tcp : String → Nat → ℚ → TcpOutcome
  ping : String → ℚ → PingOutcome

/-- Embeds `HealthChecker.check_http` (lines 163–223).  `endpoint['url']` is read
before the `try` block, so a missing `url` key raises out of the function. -/
def check_http (endpoint : Endpoint) (env : Env) : Except String ProbeResult := do
  let url ← match endpoint.url with
    | some u => pure u
    | none => throw "KeyError: url"
  let timeout := endpoint.timeout.getD 5
  match env.http url timeout with
  | .response status_code elapsed_ms =>
      let status :=
        if status_code ≥ 500 then Status.critical
        else if status_code ≥ 400 then Status.warning
        else if elapsed_ms > RESPONSE_TIME_CRITICAL then Status.critical
        else if elapsed_ms > RESPONSE_TIME_WARN then Status.warning
        else Status.healthy
      pure { name := endpoint.name, type := "http", status := status,
             available := true, response_time_ms := some (round2 elapsed_ms),
             http_code := some status_code,
             details := "HTTP " ++ toString status_code }
  | .timeout =>
      pure { name := endpoint.name, type := "http", status := Status.critical,
             available := false, response_time_ms := some (timeout * 1000),
             details := "Connection timeout" }
  | .connectionError msg =>
      pure { name := endpoint.name, type := "http", status := Status.critical,
             available := false,
             details := "Connection refused: " ++ msg.take 50 }
  | .otherError msg =>
      pure { name := endpoint.name, type := "http", status := Status.critical,
             available := false, details := "Error: " ++ msg.take 50 }

/-- Embeds `HealthChecker.check_tcp` (lines 225–284).  `endpoint['host']` and
`endpoint['port']` are read before the `try` block, so a missing key raises
out of the function. -/
def check_tcp (endpoint : Endpoint) (env : Env) : Except String ProbeResult := do
  let host ← match endpoint.host with
    | some h => pure h
    | none => throw "KeyError: host"
  let port ← match endpoint.port with
    | some p => pure p
    | none => throw "KeyError: port"
  let timeout := endpoint.timeout.getD 3
  match env.tcp host port timeout with
  | .connect result elapsed_ms =>
      if result = 0 then
        let status :=
          if elapsed_ms > RESPONSE_TIME_CRITICAL then Status.critical
          else if elapsed_ms > RESPONSE_TIME_WARN then Status.warning
          else Status.healthy
        pure { name := endpoint.name, type := "tcp", status := status,
               available := true, response_time_ms := some (round2 elapsed_ms),
               details := "Port " ++ toString port ++ " open" }
      else
        pure { name := endpoint.name, type := "tcp", status := Status.critical,
               available := false,
               details := "Port " ++ toString port ++ " closed or filtered" }
  | .gaiError =>
      pure { name := endpoint.name, type := "tcp", status := Status.critical,
             available := false, details := "DNS resolution failed" }
  | .otherError msg =>
      pure { name := endpoint.name, type := "tcp", status := Status.critical,
             available := false, details := "Error: " ++ msg.take 50 }

/-- Renders a nonnegative rational with two decimals, as Python's
`f"{x:.2f}"` does for the nonnegative averages `check_ping` measures. -/
def fmt2 (q : ℚ) : String :=
  let n : ℤ := round (q * 100)
  let frac := (n % 100).natAbs
  toString (n / 100) ++ "." ++ (if frac < 10 then "0" else "") ++ toString frac

/-- Embeds `HealthChecker.check_ping` (lines 286–357).  `endpoint['host']` is read
before the `try` block.  The stdout parsing of lines 306–313 is abstracted
into the oracle's `avg` field; both a missing `avg` line and a parse
exception yield `avg = none`, and the code then uses `avg_ms = 0`. -/
def check_ping (endpoint : Endpoint) (env : Env) : Except String ProbeResult := do
  let host ← match endpoint.host with
    | some h => pure h
    | none => throw "KeyError: host"
  let timeout := endpoint.timeout.getD 2
  match env.ping host timeout with
  | .ran returncode avg =>
      if returncode = 0 then
        let avg_ms := avg.getD 0
        let status :=
          if avg_ms > RESPONSE_TIME_CRITICAL then Status.critical
          else if avg_ms > RESPONSE_TIME_WARN then Status.warning
          else Status.healthy
        pure { name := endpoint.name, type := "ping", status := status,
               available := true, response_time_ms := some (round2 avg_ms),
               details := "Avg RTT: " ++ fmt2 avg_ms ++ "ms" }
      else
        pure { name := endpoint.name, type := "ping", status := Status.critical,
               available := false, details := "Host unreachable" }
  | .timeoutExpired =>
      pure { name := endpoint.name, type := "ping", status := Status.critical,
             available := false, details := "Ping timeout" }
  | .otherError msg =>
      pure { name := endpoint.name, type := "ping", status := Status.critical,
             available := false, details := "Error: " ++ msg.take 50 }

/-- Embeds `HealthChecker.check_ldap` (lines 359–371): builds a TCP descriptor with
`endpoint['host']` (raises when missing), port defaulted to 389 and timeout
defaulted to 3, delegates to `check_tcp`, then overwrites `type` with
`'ldap'`. -/
def check_ldap (endpoint : Endpoint) (env : Env) : Except String ProbeResult := do
  let host ← match endpoint.host with
    | some h => pure h
    | none => throw "KeyError: host"
  let endpoint_tcp : Endpoint :=
    { name := endpoint.name, host := some host,
      port := some (endpoint.port.getD 389),
      timeout := some (endpoint.timeout.getD 3) }
  let result ← check_tcp endpoint_tcp env
  pure { result with type := "ldap" }

/-- Embeds `HealthChecker.check_smtp` (lines 373–385): like `check_ldap` with port
defaulted to 25 and timeout defaulted to 5. -/
def check_smtp (endpoint : Endpoint) (env : Env) : Except String ProbeResult := do
  let host ← match endpoint.host with
    | some h => pure h
    | none => throw "KeyError: host"
  let endpoint_tcp : Endpoint :=
    { name := endpoint.name, host := some host,
      port := some (endpoint.port.getD 25),
      timeout := some (endpoint.timeout.getD 5) }
  let result ← check_tcp endpoint_tcp env
  pure { result with type := "smtp" }

/-- Embeds `HealthChecker.check_endpoint` (lines 387–410): dispatch on
`endpoint.get('type', 'tcp')`; unknown types yield the `unknown` result. -/
def check_endpoint (endpoint : Endpoint) (env : Env) : Except String ProbeResult :=
  let check_type := endpoint.type.getD "tcp"
  if check_type = "http" ∨ check_type = "https" then check_http endpoint env
  else if check_type = "tcp" then check_tcp endpoint env
  else if check_type = "ping" then check_ping endpoint env
  else if check_type = "ldap" then check_ldap endpoint env
  else if check_type = "smtp" then check_smtp endpoint env
  else
    pure { name := endpoint.name, type := check_type, status := Status.unknown,
           available := false, details := "Unknown check type" }

/-- The mutable state of a `HealthChecker` instance (lines 157–161). -/
structure CheckerState where
  results : List ProbeResult
  critical_failures : Nat
  warnings : Nat
  successes : Nat
deriving DecidableEq, Repr

/-- State after `HealthChecker.__init__`: empty results, all counters zero. -/
def freshState : CheckerState := ⟨[], 0, 0, 0⟩

/-- Appends one result to `self.results` (line 423). -/
def append_result (s : CheckerState) (result : ProbeResult) : CheckerState :=
  { s with results := s.results ++ [result] }

/-- Counter updates of lines 425–437: `successes` for a healthy result,
`warnings` for a warning, `critical_failures` for any other status whose
endpoint was flagged critical. -/
def update_counters (s : CheckerState) (result : ProbeResult) : CheckerState :=
  if result.status = Status.healthy then
    { s with successes := s.successes + 1 }
  else if result.status = Status.warning then
    { s with warnings := s.warnings + 1 }
  else if result.critical then
    { s with critical_failures := s.critical_failures + 1 }
  else s

/-- The body of the `for endpoint in endpoints` loop of `run_checks`
(lines 420–437): probe, attach the `critical` flag, append the result and
update the counters.  An exception from `check_endpoint` propagates. -/
def run_checks_loop (s : CheckerState) (endpoints : List Endpoint) (env : Env) :
    Except String CheckerState :=
  match endpoints with
  | [] => pure s
  | endpoint :: rest => do
      let raw ← check_endpoint endpoint env
      let result := { raw with critical := endpoint.critical.getD false }
      run_checks_loop (update_counters (append_result s result) result) rest env

/-- Embeds `HealthChecker.run_checks` (lines 412–447): reset `self.results` (the
counters are NOT reset), then run the loop.  The Python method returns
`self.results`; here the whole post-state is returned, whose `results`
field is that list. -/
def run_checks (s : CheckerState) (endpoints : List Endpoint) (env : Env) :
    Except String CheckerState :=
  run_checks_loop { s with results := [] } endpoints env

/-- The `summary` object of `generate_json_output` (lines 468–474). -/
structure Summary where
  total_endpoints : Nat
  healthy : Nat
  warnings : Nat
  critical : Nat
  down : Nat
deriving DecidableEq, Repr

/-- The dashboard payload built by `generate_json_output` (lines 453–480);
the `generated` timestamp and static metadata are omitted. -/
structure JsonOutput where
  overall_status : String
  summary : Summary
  endpoints : List ProbeResult
deriving DecidableEq, Repr

/-- Embeds `generate_json_output` (lines 453–485), minus the file write;
Python's `sum(1 for r in results if cond)` is `List.countP`. -/
def generate_json_output (results : List ProbeResult) : JsonOutput :=
  let critical_down :=
    results.countP fun r => decide (r.status = Status.critical) && r.critical
  let warnings := results.countP fun r => decide (r.status = Status.warning)
  let overall_status :=
    if critical_down > 0 then "critical"
    else if warnings > 0 then "warning"
    else "healthy"
  { overall_status := overall_status,
    summary :=
      { total_endpoints := results.length,
        healthy := results.countP fun r => decide (r.status = Status.healthy),
        warnings := warnings,
        critical := critical_down,
        down := results.countP fun r => !r.available },
    endpoints := results }

/-- Python true division raises `ZeroDivisionError` on a zero divisor. -/
def pyDiv (a b : ℚ) : Except String ℚ :=
  if b = 0 then throw "ZeroDivisionError: division by zero" else pure (a / b)

/-- The health-score computation of `generate_console_report` (lines
497 and 522): `health_score = (len(healthy) / len(results)) * 100`, with
Python's division semantics. -/
def console_health_score (results : List ProbeResult) : Except String ℚ := do
  let healthy := results.filter fun r => decide (r.status = Status.healthy)
  let q ← pyDiv (healthy.length : ℚ) (results.length : ℚ)
  pure (q * 100)

/-- The exit-code decision at the end of `main` (lines 584–592): it reads
the checker's counters, not the JSON output's overall status. -/
def main_exit_code (s : CheckerState) : Nat :=
  if s.critical_failures > 0 then 2
  else if s.warnings > 0 then 1
  else 0

/-- Modelled from the spec (§4.3): the latency grading the spec states —
`t ≤ 1000 → healthy`, `1000 < t ≤ 3000 → warning`, `t > 3000 → critical` —
written from the spec's words, to be compared with the inline grading of
`check_http`, `check_tcp` and `check_ping`. -/
def specGrade (t : ℚ) : Status :=
  if t ≤ 1000 then Status.healthy
  else if t ≤ 3000 then Status.warning
  else Status.critical

/-- Modelled from the spec (§4.4/§6): the exit code as a function of the
Overall Status string — `2` for critical, `1` for warning, `0` for healthy —
written from the spec's words, to be compared with `main_exit_code`. -/
def spec_exit_of_status (overall_status : String) : Nat :=
  if overall_status = "critical" then 2
  else if overall_status = "warning" then 1
  else 0

/-- Modelled from the spec (§3): the effective timeout the spec describes,
falling back to the strategy default when the field is absent OR
non-positive — written from the spec's words, to be compared with the
code's `endpoint.get('timeout', default)` (`Option.getD`). -/
def spec_effective_timeout (default : ℚ) (timeout : Option ℚ) : ℚ :=
  match timeout with
  | none => default
  | some t => if t ≤ 0 then default else t

/-- Componentwise combination of checker states: used to relate a run
started from an arbitrary state to the same run started from a fresh one. -/
def addState (s d : CheckerState) : CheckerState :=
  { results := s.results ++ d.results,
    critical_failures := s.critical_failures + d.critical_failures,
    warnings := s.warnings + d.warnings,
    successes := s.successes + d.successes }

/-- An endpoint descriptor carrying every key its declared check type reads
with `endpoint[...]` (type defaulting to `'tcp'` as in `check_endpoint`). -/
def WellFormed (e : Endpoint) : Prop :=
  ((e.type.getD "tcp" = "http" ∨ e.type.getD "tcp" = "https") → e.url.isSome)
  ∧ (e.type.getD "tcp" = "tcp" → e.host.isSome ∧ e.port.isSome)
  ∧ ((e.type.getD "tcp" = "ping" ∨ e.type.getD "tcp" = "ldap"
      ∨ e.type.getD "tcp" = "smtp") → e.host.isSome)

/-- A fixed network environment in which every HTTP request times out,
every TCP name resolution fails and every ping times out. -/
def envDefault : Env :=
  { http := fun _ _ => HttpOutcome.timeout,
    tcp := fun _ _ _ => TcpOutcome.gaiError,
    ping := fun _ _ => PingOutcome.timeoutExpired }

/-- Concrete input: an endpoint of unknown check type flagged critical. -/
def c2_ep : Endpoint := { name := "Legacy PACS", type := some "bogus", critical := some true }

/-- Concrete input: an HTTP endpoint answered with 200 in 250 ms. -/
def c3_ep : Endpoint := { name := "BookStack KB", type := some "http", url := some "https://kb" }

/-- Concrete environment answering every HTTP request with 200 in 250 ms. -/
def c3_env : Env :=
  { http := fun _ _ => HttpOutcome.response 200 250,
    tcp := fun _ _ _ => TcpOutcome.gaiError,
    ping := fun _ _ => PingOutcome.timeoutExpired }

/-- Concrete input: a TCP endpoint descriptor missing its `host` key. -/
def c4_ep : Endpoint := { name := "EHR Database", type := some "tcp", port := some 5432, critical := some true }

/-- Concrete input: a well-formed ping endpoint. -/
def c4_ep_ok : Endpoint := { name := "VPN Gateway", type := some "ping", host := some "vpn", critical := some true }

/-- Concrete input: an endpoint with the unknown check type `dns`. -/
def c5_ep : Endpoint := { name := "Internal DNS", type := some "dns", host := some "ns1" }

/-- Concrete environment answering every HTTP request with 503 in 120 ms. -/
def c6_env : Env :=
  { http := fun _ _ => HttpOutcome.response 503 120,
    tcp := fun _ _ _ => TcpOutcome.gaiError,
    ping := fun _ _ => PingOutcome.timeoutExpired }

/-- Concrete input: an HTTP endpoint with an explicit `timeout` of `0`. -/
def c7_ep : Endpoint := { name := "GLPI ITSM", type := some "http", url := some "https://glpi", timeout := some 0 }

/-- Concrete environment that times out exactly the requests issued with a
zero timeout and answers all others with 200 in 50 ms: it distinguishes a
probe run with the descriptor's `timeout = 0` from one run with the
default timeout. -/
def c7_env : Env :=
  { http := fun _ t => if t = 0 then HttpOutcome.timeout else HttpOutcome.response 200 50,
    tcp := fun _ _ _ => TcpOutcome.gaiError,
    ping := fun _ _ => PingOutcome.timeoutExpired }

/-- Concrete input: a ping endpoint. -/
def c8_ep : Endpoint := { name := "VPN Gateway", type := some "ping", host := some "vpn" }

/-- Concrete environment in which ping succeeds but its timing output is
unparseable. -/
def c8_env : Env :=
  { http := fun _ _ => HttpOutcome.timeout,
    tcp := fun _ _ _ => TcpOutcome.gaiError,
    ping := fun _ _ => PingOutcome.ran 0 none }

/-- Concrete input: a non-critical ping endpoint (probed with `envDefault`
it produces a critical/unavailable result without the critical flag). -/
def c9_ep : Endpoint := { name := "Backup Server", type := some "ping", host := some "backup" }

/-- Binding after a raised exception keeps the exception. -/
theorem except_bind_throw {α β : Type} (msg : String) (f : α → Except String β) :
    ((throw msg : Except String α) >>= f) = Except.error msg := rfl

/-- Binding after an error value keeps the error. -/
theorem except_bind_error {α β : Type} (msg : String) (f : α → Except String β) :
    ((Except.error msg : Except String α) >>= f) = Except.error msg := rfl

/-- Binding after a success value applies the continuation. -/
theorem except_bind_ok {α β : Type} (a : α) (f : α → Except String β) :
    ((Except.ok a : Except String α) >>= f) = f a := rfl

/-- The latency `if`-chain shared (textually) by the three strategies
computes exactly the grading the spec states. -/
theorem grade_chain_eq_specGrade (t : ℚ) :
    (if t > RESPONSE_TIME_CRITICAL then Status.critical
     else if t > RESPONSE_TIME_WARN then Status.warning
     else Status.healthy) = specGrade t := by
  unfold specGrade RESPONSE_TIME_CRITICAL RESPONSE_TIME_WARN
  split_ifs <;> first | rfl | (exfalso; linarith)

theorem check_http_ok_name (e : Endpoint) (env : Env) (r : ProbeResult)
    (h : check_http e env = Except.ok r) : r.name = e.name := by
  cases hu : e.url with
  | none => simp [check_http, hu, except_bind_throw] at h
  | some u =>
    simp only [check_http, hu] at h
    cases henv : env.http u (e.timeout.getD 5) <;>
      simp only [henv, pure_bind] at h <;>
      (injection h with h; subst h; rfl)

theorem check_tcp_ok_name (e : Endpoint) (env : Env) (r : ProbeResult)
    (h : check_tcp e env = Except.ok r) : r.name = e.name := by
  cases hh : e.host with
  | none => simp [check_tcp, hh, except_bind_throw] at h
  | some host =>
    cases hp : e.port with
    | none => simp [check_tcp, hh, hp, except_bind_throw] at h
    | some port =>
      simp only [check_tcp, hh, hp] at h
      cases henv : env.tcp host port (e.timeout.getD 3) <;>
        simp only [henv, pure_bind] at h
      case connect result elapsed =>
        by_cases hres : result = 0 <;>
          simp only [hres, if_pos, if_neg, reduceIte] at h <;>
          (injection h with h; subst h; rfl)
      case gaiError => injection h with h; subst h; rfl
      case otherError msg => injection h with h; subst h; rfl

theorem check_ping_ok_name (e : Endpoint) (env : Env) (r : ProbeResult)
    (h : check_ping e env = Except.ok r) : r.name = e.name := by
  cases hh : e.host with
  | none => simp [check_ping, hh, except_bind_throw] at h
  | some host =>
    simp only [check_ping, hh] at h
    cases henv : env.ping host (e.timeout.getD 2) <;>
      simp only [henv, pure_bind] at h
    case ran rc avg =>
      by_cases hrc : rc = 0 <;>
        simp only [hrc, if_pos, if_neg, reduceIte] at h <;>
        (injection h with h; subst h; rfl)
    case timeoutExpired => injection h with h; subst h; rfl
    case otherError msg => injection h with h; subst h; rfl

theorem check_ldap_ok_name (e : Endpoint) (env : Env) (r : ProbeResult)
    (h : check_ldap e env = Except.ok r) : r.name = e.name := by
  cases hh : e.host with
  | none => simp [check_ldap, hh, except_bind_throw] at h
  | some host =>
    simp only [check_ldap, hh, pure_bind] at h
    cases htcp : (check_tcp { name := e.name, host := some host, port := some (e.port.getD 389), timeout := some (e.timeout.getD 3) } env) with
    | error msg => rw [htcp] at h; simp [except_bind_error] at h
    | ok res =>
      rw [htcp] at h
      simp only [except_bind_ok] at h
      injection h with h; subst h
      simpa using check_tcp_ok_name _ _ _ htcp

theorem check_smtp_ok_name (e : Endpoint) (env : Env) (r : ProbeResult)
    (h : check_smtp e env = Except.ok r) : r.name = e.name := by
  cases hh : e.host with
  | none => simp [check_smtp, hh, except_bind_throw] at h
  | some host =>
    simp only [check_smtp, hh, pure_bind] at h
    cases htcp : (check_tcp { name := e.name, host := some host, port := some (e.port.getD 25), timeout := some (e.timeout.getD 5) } env) with
    | error msg => rw [htcp] at h; simp [except_bind_error] at h
    | ok res =>
      rw [htcp] at h
      simp only [except_bind_ok] at h
      injection h with h; subst h
      simpa using check_tcp_ok_name _ _ _ htcp

theorem check_http_total (e : Endpoint) (env : Env) (hu : e.url.isSome) :
    ∃ r, check_http e env = Except.ok r := by
  obtain ⟨u, hu⟩ := Option.isSome_iff_exists.mp hu
  simp only [check_http, hu, pure_bind]
  cases env.http u (e.timeout.getD 5) <;> exact ⟨_, rfl⟩

theorem check_tcp_total (e : Endpoint) (env : Env) (hh : e.host.isSome)
    (hp : e.port.isSome) : ∃ r, check_tcp e env = Except.ok r := by
  obtain ⟨a, ha⟩ := Option.isSome_iff_exists.mp hh
  obtain ⟨p, hp'⟩ := Option.isSome_iff_exists.mp hp
  simp only [check_tcp, ha, hp', pure_bind]
  cases env.tcp a p (e.timeout.getD 3) with
  | connect result elapsed_ms => dsimp only; split <;> exact ⟨_, rfl⟩
  | gaiError => exact ⟨_, rfl⟩
  | otherError msg => exact ⟨_, rfl⟩

theorem check_ping_total (e : Endpoint) (env : Env) (hh : e.host.isSome) :
    ∃ r, check_ping e env = Except.ok r := by
  obtain ⟨a, ha⟩ := Option.isSome_iff_exists.mp hh
  simp only [check_ping, ha, pure_bind]
  cases env.ping a (e.timeout.getD 2) with
  | ran returncode avg => dsimp only; split <;> exact ⟨_, rfl⟩
  | timeoutExpired => exact ⟨_, rfl⟩
  | otherError msg => exact ⟨_, rfl⟩

theorem check_ldap_total (e : Endpoint) (env : Env) (hh : e.host.isSome) :
    ∃ r, check_ldap e env = Except.ok r := by
  obtain ⟨a, ha⟩ := Option.isSome_iff_exists.mp hh
  simp only [check_ldap, ha, pure_bind]
  obtain ⟨res, hres⟩ := check_tcp_total { name := e.name, host := some a, port := some (e.port.getD 389), timeout := some (e.timeout.getD 3) } env rfl rfl
  rw [hres]
  exact ⟨_, rfl⟩

theorem check_smtp_total (e : Endpoint) (env : Env) (hh : e.host.isSome) :
    ∃ r, check_smtp e env = Except.ok r := by
  obtain ⟨a, ha⟩ := Option.isSome_iff_exists.mp hh
  simp only [check_smtp, ha, pure_bind]
  obtain ⟨res, hres⟩ := check_tcp_total { name := e.name, host := some a, port := some (e.port.getD 25), timeout := some (e.timeout.getD 5) } env rfl rfl
  rw [hres]
  exact ⟨_, rfl⟩

theorem check_endpoint_total (e : Endpoint) (env : Env) (h : WellFormed e) :
    ∃ r, check_endpoint e env = Except.ok r := by
  obtain ⟨h1, h2, h3⟩ := h
  simp only [check_endpoint]
  split_ifs with c1 c2 c3 c4 c5
  · exact check_http_total e env (h1 c1)
  · exact check_tcp_total e env (h2 c2).1 (h2 c2).2
  · exact check_ping_total e env (h3 (Or.inl c3))
  · exact check_ldap_total e env (h3 (Or.inr (Or.inl c4)))
  · exact check_smtp_total e env (h3 (Or.inr (Or.inr c5)))
  · exact ⟨_, rfl⟩

theorem check_endpoint_ok_name (e : Endpoint) (env : Env) (r : ProbeResult)
    (h : check_endpoint e env = Except.ok r) : r.name = e.name := by
  simp only [check_endpoint] at h
  split_ifs at h with h1 h2 h3 h4 h5
  · exact check_http_ok_name _ _ _ h
  · exact check_tcp_ok_name _ _ _ h
  · exact check_ping_ok_name _ _ _ h
  · exact check_ldap_ok_name _ _ _ h
  · exact check_smtp_ok_name _ _ _ h
  · injection h with h; subst h; rfl

theorem addState_fresh (s : CheckerState) : addState s freshState = s := by
  simp [addState, freshState]

theorem addState_assoc (s t d : CheckerState) :
    addState (addState s t) d = addState s (addState t d) := by
  simp [addState, List.append_assoc, Nat.add_assoc]

/-- Processing one result from an arbitrary prior state equals combining
the prior state with the processing of that result from a fresh state. -/
theorem upd_from_fresh (s : CheckerState) (r : ProbeResult) :
    update_counters (append_result s r) r
      = addState s (update_counters (append_result freshState r) r) := by
  unfold update_counters append_result addState freshState
  split_ifs <;> simp

/-- Running the loop from an arbitrary state is running it from a fresh
state and prepending the prior state componentwise: the counters are only
ever added to, and only `results` is reset by `run_checks`. -/
theorem run_checks_loop_shift (endpoints : List Endpoint) (env : Env) :
    ∀ s : CheckerState, run_checks_loop s endpoints env
      = Except.map (addState s) (run_checks_loop freshState endpoints env) := by
  induction endpoints with
  | nil =>
    intro s
    exact (congrArg Except.ok (addState_fresh s)).symm
  | cons e rest ih =>
    intro s
    simp only [run_checks_loop]
    cases hc : check_endpoint e env with
    | error msg => simp [hc, except_bind_error, Except.map]
    | ok raw =>
      simp only [hc, except_bind_ok]
      set r : ProbeResult := { raw with critical := e.critical.getD false } with hr
      rw [ih (update_counters (append_result s r) r),
        ih (update_counters (append_result freshState r) r)]
      cases run_checks_loop freshState rest env with
      | error msg => rfl
      | ok d =>
        show Except.ok (addState (update_counters (append_result s r) r) d)
          = Except.ok (addState s (addState (update_counters (append_result freshState r) r) d))
        rw [upd_from_fresh, addState_assoc]

/-- The per-result contribution of one loop iteration to each counter. -/
theorem upd1_components (r : ProbeResult) :
    (update_counters (append_result freshState r) r).results = [r]
    ∧ (update_counters (append_result freshState r) r).critical_failures
        = (if !(r.status == Status.healthy) && !(r.status == Status.warning) && r.critical then 1 else 0)
    ∧ (update_counters (append_result freshState r) r).warnings
        = (if r.status == Status.warning then 1 else 0)
    ∧ (update_counters (append_result freshState r) r).successes
        = (if r.status == Status.healthy then 1 else 0) := by
  unfold update_counters append_result freshState
  split_ifs with hhe hw hcr <;> simp_all

/-- After a successful fresh run, each counter equals the count of the
matching results: `critical_failures` counts the results that are neither
healthy nor warning and carry the critical flag. -/
theorem run_checks_loop_fresh_counts (env : Env) : ∀ (endpoints : List Endpoint) (d : CheckerState),
    run_checks_loop freshState endpoints env = Except.ok d →
    d.critical_failures = d.results.countP (fun r => !(r.status == Status.healthy) && !(r.status == Status.warning) && r.critical)
    ∧ d.warnings = d.results.countP (fun r => r.status == Status.warning)
    ∧ d.successes = d.results.countP (fun r => r.status == Status.healthy) := by
  intro endpoints
  induction endpoints with
  | nil =>
    intro d h
    simp only [run_checks_loop] at h
    injection h with h
    subst h
    simp [freshState]
  | cons e rest ih =>
    intro d h
    simp only [run_checks_loop] at h
    cases hc : check_endpoint e env with
    | error msg => rw [hc] at h; simp [except_bind_error] at h
    | ok raw =>
      rw [hc] at h
      simp only [except_bind_ok] at h
      rw [run_checks_loop_shift] at h
      cases hrest : run_checks_loop freshState rest env with
      | error m => rw [hrest] at h; simp [Except.map] at h
      | ok d' =>
        rw [hrest] at h
        simp only [Except.map] at h
        injection h with h
        subst h
        obtain ⟨ih1, ih2, ih3⟩ := ih d' hrest
        obtain ⟨u1, u2, u3, u4⟩ := upd1_components { raw with critical := e.critical.getD false }
        refine ⟨?_, ?_, ?_⟩ <;>
          simp [addState, u1, u2, u3, u4, ih1, ih2, ih3, List.countP_cons,
            Nat.add_comm]

/-- A successful fresh run returns exactly one result per endpoint, in
input order, each echoing its endpoint's name. -/
theorem run_checks_loop_fresh_names (env : Env) : ∀ (endpoints : List Endpoint) (d : CheckerState),
    run_checks_loop freshState endpoints env = Except.ok d →
    d.results.map ProbeResult.name = endpoints.map Endpoint.name := by
  intro endpoints
  induction endpoints with
  | nil =>
    intro d h
    simp only [run_checks_loop] at h
    injection h with h
    subst h
    simp [freshState]
  | cons e rest ih =>
    intro d h
    simp only [run_checks_loop] at h
    cases hc : check_endpoint e env with
    | error msg => rw [hc] at h; simp [except_bind_error] at h
    | ok raw =>
      rw [hc] at h
      simp only [except_bind_ok] at h
      rw [run_checks_loop_shift] at h
      cases hrest : run_checks_loop freshState rest env with
      | error m => rw [hrest] at h; simp [Except.map] at h
      | ok d' =>
        rw [hrest] at h
        simp only [Except.map] at h
        injection h with h
        subst h
        obtain ⟨u1, _, _, _⟩ := upd1_components { raw with critical := e.critical.getD false }
        have hname : raw.name = e.name := check_endpoint_ok_name _ _ _ hc
        simp only [addState, u1, List.map_append, ih d' hrest, List.map_cons,
          List.map_nil, List.singleton_append, List.map]
        simp [hname]

/-- A fresh run over well-formed endpoints always completes. -/
theorem run_checks_loop_fresh_total (env : Env) : ∀ endpoints : List Endpoint,
    (∀ e ∈ endpoints, WellFormed e) →
    ∃ d, run_checks_loop freshState endpoints env = Except.ok d := by
  intro endpoints
  induction endpoints with
  | nil => intro _; exact ⟨freshState, rfl⟩
  | cons e rest ih =>
    intro hw
    obtain ⟨raw, hc⟩ := check_endpoint_total e env (hw e (List.mem_cons_self e rest))
    simp only [run_checks_loop, hc, except_bind_ok]
    rw [run_checks_loop_shift]
    obtain ⟨d', hd'⟩ := ih fun x hx => hw x (List.mem_cons_of_mem e hx)
    rw [hd']
    exact ⟨_, rfl⟩

/-- Starting `run_checks` from a fresh checker is the bare loop. -/
theorem run_checks_fresh (endpoints : List Endpoint) (env : Env) :
    run_checks freshState endpoints env = run_checks_loop freshState endpoints env := rfl

/-- Outcome of `check_http` when the request yields a response. -/
theorem check_http_response (e : Endpoint) (env : Env) (u : String) (code : Nat) (t : ℚ)
    (hu : e.url = some u)
    (henv : env.http u (e.timeout.getD 5) = HttpOutcome.response code t) :
    check_http e env = Except.ok
      { name := e.name, type := "http",
        status := if 500 ≤ code then Status.critical
          else if 400 ≤ code then Status.warning else specGrade t,
        available := true, response_time_ms := some (round2 t),
        http_code := some code, details := "HTTP " ++ toString code } := by
  simp only [check_http, hu, pure_bind, henv, grade_chain_eq_specGrade, gt_iff_lt]
  rfl

/-- Outcome of `check_http` when the request raises `Timeout`. -/
theorem check_http_timeout (e : Endpoint) (env : Env) (u : String)
    (hu : e.url = some u)
    (henv : env.http u (e.timeout.getD 5) = HttpOutcome.timeout) :
    check_http e env = Except.ok
      { name := e.name, type := "http", status := Status.critical,
        available := false, response_time_ms := some ((e.timeout.getD 5) * 1000),
        details := "Connection timeout" } := by
  simp only [check_http, hu, pure_bind, henv]
  rfl

/-- Outcome of `check_http` when the request raises `ConnectionError`. -/
theorem check_http_conn_error (e : Endpoint) (env : Env) (u : String) (msg : String)
    (hu : e.url = some u)
    (henv : env.http u (e.timeout.getD 5) = HttpOutcome.connectionError msg) :
    check_http e env = Except.ok
      { name := e.name, type := "http", status := Status.critical,
        available := false, details := "Connection refused: " ++ msg.take 50 } := by
  simp only [check_http, hu, pure_bind, henv]
  rfl

/-- Outcome of `check_http` when the request raises any other exception. -/
theorem check_http_other_error (e : Endpoint) (env : Env) (u : String) (msg : String)
    (hu : e.url = some u)
    (henv : env.http u (e.timeout.getD 5) = HttpOutcome.otherError msg) :
    check_http e env = Except.ok
      { name := e.name, type := "http", status := Status.critical,
        available := false, details := "Error: " ++ msg.take 50 } := by
  simp only [check_http, hu, pure_bind, henv]
  rfl

/-- Outcome of `check_tcp` when the connection succeeds. -/
theorem check_tcp_connect_ok (e : Endpoint) (env : Env) (a : String) (p : Nat) (t : ℚ)
    (hh : e.host = some a) (hp : e.port = some p)
    (henv : env.tcp a p (e.timeout.getD 3) = TcpOutcome.connect 0 t) :
    check_tcp e env = Except.ok
      { name := e.name, type := "tcp", status := specGrade t, available := true,
        response_time_ms := some (round2 t),
        details := "Port " ++ toString p ++ " open" } := by
  simp only [check_tcp, hh, hp, pure_bind, henv, if_pos, grade_chain_eq_specGrade,
    gt_iff_lt]
  rfl

/-- Outcome of `check_ping` when the subprocess exits with code 0. -/
theorem check_ping_ran_zero (e : Endpoint) (env : Env) (a : String) (avg : Option ℚ)
    (hh : e.host = some a)
    (henv : env.ping a (e.timeout.getD 2) = PingOutcome.ran 0 avg) :
    check_ping e env = Except.ok
      { name := e.name, type := "ping", status := specGrade (avg.getD 0),
        available := true, response_time_ms := some (round2 (avg.getD 0)),
        details := "Avg RTT: " ++ fmt2 (avg.getD 0) ++ "ms" } := by
  simp only [check_ping, hh, pure_bind, henv, if_pos, grade_chain_eq_specGrade,
    gt_iff_lt]
  rfl

/-- C1: the aggregated Overall Status of `generate_json_output` is
"critical" iff some result has health state critical with the critical
flag true; otherwise it is "warning" iff some result has health state
warning; otherwise it is "healthy".  In particular, results that are
critical without the flag never make the Overall Status "critical". -/
theorem c1_overall_status_iff (results : List ProbeResult) :
    ((generate_json_output results).overall_status = "critical" ↔
      ∃ r ∈ results, r.status = Status.critical ∧ r.critical = true)
    ∧ ((generate_json_output results).overall_status = "warning" ↔
      ((¬ ∃ r ∈ results, r.status = Status.critical ∧ r.critical = true) ∧
        ∃ r ∈ results, r.status = Status.warning))
    ∧ ((generate_json_output results).overall_status = "healthy" ↔
      ((¬ ∃ r ∈ results, r.status = Status.critical ∧ r.critical = true) ∧
        ¬ ∃ r ∈ results, r.status = Status.warning))
    ∧ ((∀ r ∈ results, r.critical = false) →
        (generate_json_output results).overall_status ≠ "critical") := by
  have hcd : (0 < results.countP fun r => decide (r.status = Status.critical) && r.critical) ↔
      ∃ r ∈ results, r.status = Status.critical ∧ r.critical = true := by
    rw [List.countP_pos_iff]
    simp
  have hwa : (0 < results.countP fun r => decide (r.status = Status.warning)) ↔
      ∃ r ∈ results, r.status = Status.warning := by
    rw [List.countP_pos_iff]
    simp
  by_cases h1 : ∃ r ∈ results, r.status = Status.critical ∧ r.critical = true
  · have hov : (generate_json_output results).overall_status = "critical" := by
      simp only [generate_json_output, gt_iff_lt]
      rw [if_pos (hcd.mpr h1)]
    rw [hov]
    refine ⟨by simp [h1], ⟨fun hx => absurd hx (by decide), fun hx => absurd h1 hx.1⟩,
      ⟨fun hx => absurd hx (by decide), fun hx => absurd h1 hx.1⟩, ?_⟩
    intro hall
    obtain ⟨r, hr, -, hc⟩ := h1
    rw [hall r hr] at hc
    exact absurd hc (by decide)
  · have h1' : ¬ 0 < results.countP fun r => decide (r.status = Status.critical) && r.critical :=
      fun hlt => h1 (hcd.mp hlt)
    by_cases h2 : ∃ r ∈ results, r.status = Status.warning
    · have hov : (generate_json_output results).overall_status = "warning" := by
        simp only [generate_json_output, gt_iff_lt]
        rw [if_neg h1', if_pos (hwa.mpr h2)]
      rw [hov]
      exact ⟨⟨fun hx => absurd hx (by decide), fun hx => absurd hx h1⟩,
        ⟨fun _ => ⟨h1, h2⟩, fun _ => rfl⟩,
        ⟨fun hx => absurd hx (by decide), fun hx => absurd h2 hx.2⟩,
        fun _ => by decide⟩
    · have h2' : ¬ 0 < results.countP fun r => decide (r.status = Status.warning) :=
        fun hlt => h2 (hwa.mp hlt)
      have hov : (generate_json_output results).overall_status = "healthy" := by
        simp only [generate_json_output, gt_iff_lt]
        rw [if_neg h1', if_neg h2']
      rw [hov]
      exact ⟨⟨fun hx => absurd hx (by decide), fun hx => absurd hx h1⟩,
        ⟨fun hx => absurd hx (by decide), fun hx => absurd hx.2 h2⟩,
        ⟨fun _ => ⟨h1, h2⟩, fun _ => rfl⟩,
        fun _ => by decide⟩

/-- C1 witness: a single result that is critical but unflagged does not
make the Overall Status "critical". -/
theorem c1_witness :
    (∀ r ∈ ([
      { name := "Backup Server", type := "tcp", status := Status.critical,
        available := false, details := "Port 22 closed or filtered",
        critical := false }] : List ProbeResult), r.critical = false)
    ∧ (generate_json_output [
      { name := "Backup Server", type := "tcp", status := Status.critical,
        available := false, details := "Port 22 closed or filtered",
        critical := false }]).overall_status
      ≠ "critical" :=
  ⟨by decide, (c1_overall_status_iff _).2.2.2 (by decide)⟩

/-- C3: every successful, available probe — http answered 2xx/3xx, tcp
connect success, ping success with parsed average — is graded with the
same two thresholds, and the boundary values 1000 and 3000 land in the
less severe tier: healthy at `t ≤ 1000`, warning at `1000 < t ≤ 3000`,
critical at `t > 3000`. -/
theorem c3_latency_thresholds :
    (∀ (e : Endpoint) (env : Env) (u : String) (code : Nat) (t : ℚ) (r : ProbeResult),
      e.url = some u → env.http u (e.timeout.getD 5) = HttpOutcome.response code t →
      200 ≤ code → code < 400 → check_http e env = Except.ok r →
      r.status = specGrade t ∧ r.available = true)
    ∧ (∀ (e : Endpoint) (env : Env) (a : String) (p : Nat) (t : ℚ) (r : ProbeResult),
      e.host = some a → e.port = some p →
      env.tcp a p (e.timeout.getD 3) = TcpOutcome.connect 0 t →
      check_tcp e env = Except.ok r → r.status = specGrade t ∧ r.available = true)
    ∧ (∀ (e : Endpoint) (env : Env) (a : String) (t : ℚ) (r : ProbeResult),
      e.host = some a → env.ping a (e.timeout.getD 2) = PingOutcome.ran 0 (some t) →
      check_ping e env = Except.ok r → r.status = specGrade t ∧ r.available = true)
    ∧ specGrade 1000 = Status.healthy ∧ specGrade 3000 = Status.warning
    ∧ (∀ t : ℚ, t ≤ 1000 → specGrade t = Status.healthy)
    ∧ (∀ t : ℚ, 1000 < t → t ≤ 3000 → specGrade t = Status.warning)
    ∧ (∀ t : ℚ, 3000 < t → specGrade t = Status.critical) := by
  refine ⟨?_, ?_, ?_, by norm_num [specGrade], by norm_num [specGrade], ?_, ?_, ?_⟩
  · intro e env u code t r hu henv h200 h400 hok
    rw [check_http_response e env u code t hu henv] at hok
    injection hok with hok
    subst hok
    have hc5 : ¬ 500 ≤ code := by omega
    have hc4 : ¬ 400 ≤ code := by omega
    simp [hc5, hc4]
  · intro e env a p t r hh hp henv hok
    rw [check_tcp_connect_ok e env a p t hh hp henv] at hok
    injection hok with hok
    subst hok
    exact ⟨rfl, rfl⟩
  · intro e env a t r hh henv hok
    rw [check_ping_ran_zero e env a (some t) hh henv] at hok
    injection hok with hok
    subst hok
    exact ⟨rfl, rfl⟩
  · intro t ht
    simp [specGrade, ht]
  · intro t ht1 ht2
    rw [specGrade, if_neg (by linarith), if_pos ht2]
  · intro t ht
    rw [specGrade, if_neg (by linarith), if_neg (by linarith)]

/-- C3 witness: the http branch applied to a 200-in-250-ms probe. -/
theorem c3_witness :
    check_http c3_ep c3_env = Except.ok
      { name := "BookStack KB", type := "http", status := Status.healthy,
        available := true, response_time_ms := some 250, http_code := some 200,
        details := "HTTP 200" }
    ∧ (ProbeResult.status
      { name := "BookStack KB", type := "http", status := Status.healthy,
        available := true, response_time_ms := some 250, http_code := some 200,
        details := "HTTP 200" } = specGrade 250) := by
  have heval : check_http c3_ep c3_env = Except.ok
      { name := "BookStack KB", type := "http", status := Status.healthy,
        available := true, response_time_ms := some 250, http_code := some 200,
        details := "HTTP 200" } := by
    norm_num [check_http, c3_ep, c3_env, round2, RESPONSE_TIME_WARN, RESPONSE_TIME_CRITICAL]
    rfl
  exact ⟨heval, (c3_latency_thresholds.1 c3_ep c3_env "https://kb" 200 250 _
    rfl rfl (by norm_num) (by norm_num) heval).1⟩

/-- C5: a descriptor whose check type is outside
{http, https, tcp, ping, ldap, smtp} yields the `unknown`, unavailable
result with detail "Unknown check type", echoing the check type verbatim;
this never throws, and the dispatcher loop over such a descriptor
completes from any checker state. -/
theorem c5_unknown_check_type (e : Endpoint) (env : Env)
    (h : e.type.getD "tcp" ∉ (["http", "https", "tcp", "ping", "ldap", "smtp"] : List String)) :
    check_endpoint e env = Except.ok
      { name := e.name, type := e.type.getD "tcp", status := Status.unknown,
        available := false, details := "Unknown check type" }
    ∧ ∀ s : CheckerState, ∃ s', run_checks s [e] env = Except.ok s' := by
  simp only [List.mem_cons, List.mem_singleton, not_or, List.not_mem_nil] at h
  obtain ⟨n1, n2, n3, n4, n5, ⟨n6, -⟩⟩ :
      ¬ e.type.getD "tcp" = "http" ∧ ¬ e.type.getD "tcp" = "https"
      ∧ ¬ e.type.getD "tcp" = "tcp" ∧ ¬ e.type.getD "tcp" = "ping"
      ∧ ¬ e.type.getD "tcp" = "ldap"
      ∧ ¬ e.type.getD "tcp" = "smtp" ∧ True := by
    tauto
  have hok : check_endpoint e env = Except.ok
      { name := e.name, type := e.type.getD "tcp", status := Status.unknown,
        available := false, details := "Unknown check type" } := by
    simp only [check_endpoint]
    rw [if_neg (not_or.mpr ⟨n1, n2⟩), if_neg n3, if_neg n4, if_neg n5, if_neg n6]
    rfl
  refine ⟨hok, fun s => ?_⟩
  simp only [run_checks, run_checks_loop, hok, except_bind_ok]
  exact ⟨_, rfl⟩

/-- C5 witness: the unknown type `dns` applied concretely. -/
theorem c5_witness :
    c5_ep.type.getD "tcp" ∉ (["http", "https", "tcp", "ping", "ldap", "smtp"] : List String)
    ∧ check_endpoint c5_ep envDefault = Except.ok
      { name := "Internal DNS", type := "dns", status := Status.unknown,
        available := false, details := "Unknown check type" }
    ∧ ∃ s', run_checks freshState [c5_ep] envDefault = Except.ok s' := by
  have h : c5_ep.type.getD "tcp" ∉ (["http", "https", "tcp", "ping", "ldap", "smtp"] : List String) := by
    decide
  have hthm := c5_unknown_check_type c5_ep envDefault h
  exact ⟨h, hthm.1, hthm.2 freshState⟩

/-- C6: for http probes, a 5xx response is available-but-critical, a 4xx
response is available-but-warning (latency is ignored in both), a 2xx/3xx
response is latency-graded, and every exception class yields a critical,
unavailable result with a bounded detail string — always an `ok` result,
never a propagated error. -/
theorem c6_http_response_classes :
    (∀ (e : Endpoint) (env : Env) (u : String) (code : Nat) (t : ℚ) (r : ProbeResult),
      e.url = some u → env.http u (e.timeout.getD 5) = HttpOutcome.response code t →
      500 ≤ code → check_http e env = Except.ok r →
      r.available = true ∧ r.status = Status.critical)
    ∧ (∀ (e : Endpoint) (env : Env) (u : String) (code : Nat) (t : ℚ) (r : ProbeResult),
      e.url = some u → env.http u (e.timeout.getD 5) = HttpOutcome.response code t →
      400 ≤ code → code < 500 → check_http e env = Except.ok r →
      r.available = true ∧ r.status = Status.warning)
    ∧ (∀ (e : Endpoint) (env : Env) (u : String) (code : Nat) (t : ℚ) (r : ProbeResult),
      e.url = some u → env.http u (e.timeout.getD 5) = HttpOutcome.response code t →
      200 ≤ code → code < 400 → check_http e env = Except.ok r →
      r.available = true ∧ r.status = specGrade t)
    ∧ (∀ (e : Endpoint) (env : Env) (u : String),
      e.url = some u → env.http u (e.timeout.getD 5) = HttpOutcome.timeout →
      check_http e env = Except.ok
        { name := e.name, type := "http", status := Status.critical,
          available := false, response_time_ms := some ((e.timeout.getD 5) * 1000),
          details := "Connection timeout" })
    ∧ (∀ (e : Endpoint) (env : Env) (u msg : String),
      e.url = some u → env.http u (e.timeout.getD 5) = HttpOutcome.connectionError msg →
      check_http e env = Except.ok
        { name := e.name, type := "http", status := Status.critical,
          available := false, details := "Connection refused: " ++ msg.take 50 })
    ∧ (∀ (e : Endpoint) (env : Env) (u msg : String),
      e.url = some u → env.http u (e.timeout.getD 5) = HttpOutcome.otherError msg →
      check_http e env = Except.ok
        { name := e.name, type := "http", status := Status.critical,
          available := false, details := "Error: " ++ msg.take 50 }) := by
  refine ⟨?_, ?_, ?_, check_http_timeout, check_http_conn_error, check_http_other_error⟩
  · intro e env u code t r hu henv hc hok
    rw [check_http_response e env u code t hu henv] at hok
    injection hok with hok
    subst hok
    simp [hc]
  · intro e env u code t r hu henv hc4 hc5 hok
    rw [check_http_response e env u code t hu henv] at hok
    injection hok with hok
    subst hok
    have : ¬ 500 ≤ code := by omega
    simp [this, hc4]
  · intro e env u code t r hu henv h2 h4 hok
    rw [check_http_response e env u code t hu henv] at hok
    injection hok with hok
    subst hok
    have hn5 : ¬ 500 ≤ code := by omega
    have hn4 : ¬ 400 ≤ code := by omega
    simp [hn5, hn4]

/-- C6 witness: the 5xx branch applied to a 503 response. -/
theorem c6_witness :
    check_http c3_ep c6_env = Except.ok
      { name := "BookStack KB", type := "http", status := Status.critical,
        available := true, response_time_ms := some 120, http_code := some 503,
        details := "HTTP 503" }
    ∧ (ProbeResult.available
      { name := "BookStack KB", type := "http", status := Status.critical,
        available := true, response_time_ms := some 120, http_code := some 503,
        details := "HTTP 503" } = true) := by
  have heval : check_http c3_ep c6_env = Except.ok
      { name := "BookStack KB", type := "http", status := Status.critical,
        available := true, response_time_ms := some 120, http_code := some 503,
        details := "HTTP 503" } := by
    norm_num [check_http, c3_ep, c6_env, round2]
    rfl
  exact ⟨heval, (c6_http_response_classes.1 c3_ep c6_env "https://kb" 503 120 _
    rfl rfl (by norm_num) heval).1⟩

/-- C8: a ping whose subprocess succeeds but whose timing output cannot be
parsed still yields a successful, available result with zero recorded
latency, graded healthy; the parse failure never aborts the check. -/
theorem c8_ping_parse_fallback (e : Endpoint) (env : Env) (a : String)
    (hh : e.host = some a)
    (henv : env.ping a (e.timeout.getD 2) = PingOutcome.ran 0 none) :
    check_ping e env = Except.ok
      { name := e.name, type := "ping", status := Status.healthy,
        available := true, response_time_ms := some 0,
        details := "Avg RTT: 0.00ms" } := by
  rw [check_ping_ran_zero e env a none hh henv]
  norm_num [specGrade, round2, fmt2]
  rfl

/-- C8 witness: the fallback applied concretely. -/
theorem c8_witness :
    c8_env.ping "vpn" (c8_ep.timeout.getD 2) = PingOutcome.ran 0 none
    ∧ check_ping c8_ep c8_env = Except.ok
      { name := "VPN Gateway", type := "ping", status := Status.healthy,
        available := true, response_time_ms := some 0,
        details := "Avg RTT: 0.00ms" } :=
  ⟨rfl, c8_ping_parse_fallback c8_ep c8_env "vpn" rfl rfl⟩

/-- C10: the console report's health score divides by the number of
results with no guard: it is a division-by-zero error on the empty result
list, and well defined (with the stated value) on every non-empty list. -/
theorem c10_health_score_division :
    console_health_score [] = Except.error "ZeroDivisionError: division by zero"
    ∧ ∀ results : List ProbeResult, results ≠ [] →
      console_health_score results = Except.ok
        ((((results.filter fun r => decide (r.status = Status.healthy)).length : ℚ)
          / (results.length : ℚ)) * 100) := by
  constructor
  · rfl
  · intro results hne
    have hlen : (results.length : ℚ) ≠ 0 := by
      simp [List.length_eq_zero, hne]
    simp only [console_health_score, pyDiv, if_neg hlen, pure_bind]
    rfl

/-- C10 witness: the non-empty branch applied to a one-element list. -/
theorem c10_witness :
    (([
      { name := "GLPI ITSM", type := "http", status := Status.healthy,
        available := true, response_time_ms := some 50, http_code := some 200,
        details := "HTTP 200" }] : List ProbeResult) ≠ [])
    ∧ console_health_score [
      { name := "GLPI ITSM", type := "http", status := Status.healthy,
        available := true, response_time_ms := some 50, http_code := some 200,
        details := "HTTP 200" }] = Except.ok 100 := by
  refine ⟨by simp, ?_⟩
  rw [(c10_health_score_division).2 _ (by simp)]
  norm_num

/-- C2 counterexample: an unknown-type endpoint flagged critical makes the
checker count a critical failure (exit code 2) while the aggregated
Overall Status is "healthy" (spec mapping: exit code 0) — the exit code is
not a function of the Overall Status. -/
theorem c2_counterexample :
    ∃ s : CheckerState,
      run_checks freshState [c2_ep] envDefault = Except.ok s
      ∧ (generate_json_output s.results).overall_status = "healthy"
      ∧ main_exit_code s = 2 := by
  refine ⟨⟨[
    { name := "Legacy PACS", type := "bogus", status := Status.unknown,
      available := false, details := "Unknown check type", critical := true }], 1, 0, 0⟩,
    rfl, rfl, rfl⟩

/-- C2 amended: the exit code agrees with the §4.4/§6 mapping of the
Overall Status for every run none of whose results is an `unknown` state
carrying the critical flag; with such a result the counters (which drive
the exit code) diverge from the aggregator. -/
theorem c2_exit_code_amended (endpoints : List Endpoint) (env : Env) (s : CheckerState)
    (hrun : run_checks freshState endpoints env = Except.ok s)
    (hnu : ∀ r ∈ s.results, ¬(r.status = Status.unknown ∧ r.critical = true)) :
    main_exit_code s = spec_exit_of_status (generate_json_output s.results).overall_status := by
  rw [run_checks_fresh] at hrun
  obtain ⟨hcf, hwa, -⟩ := run_checks_loop_fresh_counts env endpoints s hrun
  have hcc : (s.results.countP fun r => !(r.status == Status.healthy) && !(r.status == Status.warning) && r.critical)
      = s.results.countP fun r => decide (r.status = Status.critical) && r.critical := by
    apply List.countP_congr
    intro r hr
    have hne := hnu r hr
    cases hs : r.status <;> cases hc : r.critical <;> simp_all
  have hww : (s.results.countP fun r => r.status == Status.warning)
      = s.results.countP fun r => decide (r.status = Status.warning) := by
    apply List.countP_congr
    intro r hr
    simp
  simp only [main_exit_code, generate_json_output, spec_exit_of_status, gt_iff_lt]
  rw [hcf, hwa, hcc, hww]
  by_cases h1 : 0 < s.results.countP fun r => decide (r.status = Status.critical) && r.critical
  · rw [if_pos h1, if_pos h1]
    rfl
  · rw [if_neg h1, if_neg h1]
    by_cases h2 : 0 < s.results.countP fun r => decide (r.status = Status.warning)
    · rw [if_pos h2, if_pos h2]
      rfl
    · rw [if_neg h2, if_neg h2]
      rfl

/-- C2 witness: the amended mapping on a critical ping failure. -/
theorem c2_witness :
    run_checks freshState [c4_ep_ok] envDefault = Except.ok ⟨[
      { name := "VPN Gateway", type := "ping", status := Status.critical,
        available := false, details := "Ping timeout", critical := true }], 1, 0, 0⟩
    ∧ main_exit_code ⟨[
      { name := "VPN Gateway", type := "ping", status := Status.critical,
        available := false, details := "Ping timeout", critical := true }], 1, 0, 0⟩
      = spec_exit_of_status (generate_json_output [
      { name := "VPN Gateway", type := "ping", status := Status.critical,
        available := false, details := "Ping timeout", critical := true }]).overall_status := by
  have hrun : run_checks freshState [c4_ep_ok] envDefault = Except.ok ⟨[
      { name := "VPN Gateway", type := "ping", status := Status.critical,
        available := false, details := "Ping timeout", critical := true }], 1, 0, 0⟩ := rfl
  exact ⟨hrun, c2_exit_code_amended [c4_ep_ok] envDefault _ hrun (by decide)⟩

/-- C4 counterexample: a TCP descriptor missing its `host` key raises out
of `run_checks` — nothing is caught at the dispatcher boundary, and the
batch terminates with no results instead of a critical probe result. -/
theorem c4_counterexample :
    run_checks freshState [c4_ep] envDefault = Except.error "KeyError: host" := rfl

/-- C4 amended: failures raised inside a strategy's network operation are
caught within that strategy (every outcome yields an `ok` result), so over
well-formed descriptors — those carrying every key their check type reads —
the batch always completes with exactly one result per descriptor in input
order; but there is no dispatcher-boundary catch, and a descriptor missing
a required key raises and terminates the batch. -/
theorem c4_dispatcher_amended (endpoints : List Endpoint) (env : Env)
    (hw : ∀ e ∈ endpoints, WellFormed e) :
    ∃ s, run_checks freshState endpoints env = Except.ok s
      ∧ s.results.map ProbeResult.name = endpoints.map Endpoint.name := by
  obtain ⟨s, hs⟩ := run_checks_loop_fresh_total env endpoints hw
  exact ⟨s, by rw [run_checks_fresh]; exact hs,
    run_checks_loop_fresh_names env endpoints s hs⟩

/-- C4 witness: the amended totality applied to one well-formed endpoint. -/
theorem c4_witness :
    (∀ e ∈ [c4_ep_ok], WellFormed e)
    ∧ ∃ s, run_checks freshState [c4_ep_ok] envDefault = Except.ok s
      ∧ s.results.map ProbeResult.name = [c4_ep_ok].map Endpoint.name := by
  have hw : ∀ e ∈ [c4_ep_ok], WellFormed e := by
    intro e he
    rw [List.mem_singleton] at he
    subst he
    exact ⟨fun hcon => absurd hcon (by decide), fun hcon => absurd hcon (by decide),
      fun _ => by decide⟩
  exact ⟨hw, c4_dispatcher_amended [c4_ep_ok] envDefault hw⟩

/-- C7 counterexample: a descriptor carrying `timeout = 0` is probed with
`0`, not with the default `5` the spec prescribes for non-positive values:
against an environment that times out exactly zero-timeout requests, the
probe fails (reporting `0 * 1000` elapsed) while the same descriptor
without the key is probed with the default and succeeds. -/
theorem c7_counterexample :
    c7_ep.timeout = some 0
    ∧ spec_effective_timeout 5 c7_ep.timeout = 5
    ∧ check_http c7_ep c7_env = Except.ok
      { name := "GLPI ITSM", type := "http", status := Status.critical,
        available := false, response_time_ms := some 0,
        details := "Connection timeout" }
    ∧ check_http { c7_ep with timeout := none } c7_env = Except.ok
      { name := "GLPI ITSM", type := "http", status := Status.healthy,
        available := true, response_time_ms := some 50, http_code := some 200,
        details := "HTTP 200" } := by
  refine ⟨rfl, by norm_num [spec_effective_timeout, c7_ep], ?_, ?_⟩
  · norm_num [check_http, c7_ep, c7_env]
    rfl
  · norm_num [check_http, c7_ep, c7_env, round2, RESPONSE_TIME_WARN, RESPONSE_TIME_CRITICAL]
    rfl

/-- C7 amended: each strategy's default (http 5, tcp 3, ping 2) is used
exactly when the `timeout` key is absent; when the key is present its
value — positive or not — is the one the probe is issued with (only the
environment's answer at that value matters). -/
theorem c7_timeout_default_amended :
    (∀ (e : Endpoint) (env : Env) (u : String), e.url = some u → e.timeout = none →
      check_http e env = check_http { e with timeout := some 5 } env)
    ∧ (∀ (e : Endpoint) (env : Env) (a : String) (p : Nat),
      e.host = some a → e.port = some p → e.timeout = none →
      check_tcp e env = check_tcp { e with timeout := some 3 } env)
    ∧ (∀ (e : Endpoint) (env : Env) (a : String), e.host = some a → e.timeout = none →
      check_ping e env = check_ping { e with timeout := some 2 } env)
    ∧ (∀ (e : Endpoint) (env env' : Env) (u : String) (t : ℚ),
      e.url = some u → e.timeout = some t → env.http u t = env'.http u t →
      check_http e env = check_http e env')
    ∧ (∀ (e : Endpoint) (env env' : Env) (a : String) (p : Nat) (t : ℚ),
      e.host = some a → e.port = some p → e.timeout = some t →
      env.tcp a p t = env'.tcp a p t → check_tcp e env = check_tcp e env')
    ∧ (∀ (e : Endpoint) (env env' : Env) (a : String) (t : ℚ),
      e.host = some a → e.timeout = some t → env.ping a t = env'.ping a t →
      check_ping e env = check_ping e env') := by
  refine ⟨?_, ?_, ?_, ?_, ?_, ?_⟩
  · intro e env u hu ht
    simp only [check_http, hu, ht, Option.getD_none, Option.getD_some]
  · intro e env a p hh hp ht
    simp only [check_tcp, hh, hp, ht, Option.getD_none, Option.getD_some]
  · intro e env a hh ht
    simp only [check_ping, hh, ht, Option.getD_none, Option.getD_some]
  · intro e env env' u t hu ht henv
    simp only [check_http, hu, ht, Option.getD_some, pure_bind]
    rw [henv]
  · intro e env env' a p t hh hp ht henv
    simp only [check_tcp, hh, hp, ht, Option.getD_some, pure_bind]
    rw [henv]
  · intro e env env' a t hh ht henv
    simp only [check_ping, hh, ht, Option.getD_some, pure_bind]
    rw [henv]

/-- C7 witness: an absent timeout behaves as the http default 5. -/
theorem c7_witness :
    ({ name := "GLPI ITSM", type := some "http", url := some "https://glpi" } : Endpoint).timeout = none
    ∧ check_http { name := "GLPI ITSM", type := some "http", url := some "https://glpi" } c7_env
      = check_http { name := "GLPI ITSM", type := some "http", url := some "https://glpi", timeout := some 5 } c7_env :=
  ⟨rfl, c7_timeout_default_amended.1
    { name := "GLPI ITSM", type := some "http", url := some "https://glpi" }
    c7_env "https://glpi" rfl rfl⟩

/-- C9: with a fixed environment (fixed per-probe raw outcomes), running
`run_checks` a second time on the same checker instance reproduces the
first run's per-endpoint results exactly, hence the same Overall Status,
and the accumulated counters still yield the same exit code: no state
carried across cycles changes any output. -/
theorem c9_stateless_rerun (endpoints : List Endpoint) (env : Env) (s₁ : CheckerState)
    (hrun : run_checks freshState endpoints env = Except.ok s₁) :
    ∃ s₂, run_checks s₁ endpoints env = Except.ok s₂
      ∧ s₂.results = s₁.results
      ∧ (generate_json_output s₂.results).overall_status
          = (generate_json_output s₁.results).overall_status
      ∧ main_exit_code s₂ = main_exit_code s₁ := by
  rw [run_checks_fresh] at hrun
  have h2 : run_checks s₁ endpoints env
      = Except.map (addState ⟨[], s₁.critical_failures, s₁.warnings, s₁.successes⟩)
        (run_checks_loop freshState endpoints env) :=
    run_checks_loop_shift endpoints env _
  rw [hrun] at h2
  refine ⟨addState ⟨[], s₁.critical_failures, s₁.warnings, s₁.successes⟩ s₁, h2, ?_, ?_, ?_⟩
  · simp [addState]
  · simp [addState]
  · simp only [main_exit_code, addState]
    split_ifs <;> omega

/-- C9 witness: the rerun theorem applied to a one-endpoint run. -/
theorem c9_witness :
    run_checks freshState [c9_ep] envDefault = Except.ok ⟨[
      { name := "Backup Server", type := "ping", status := Status.critical,
        available := false, details := "Ping timeout", critical := false }], 0, 0, 0⟩
    ∧ ∃ s₂,
      run_checks ⟨[
        { name := "Backup Server", type := "ping", status := Status.critical,
          available := false, details := "Ping timeout", critical := false }], 0, 0, 0⟩
        [c9_ep] envDefault = Except.ok s₂
      ∧ s₂.results = [
        { name := "Backup Server", type := "ping", status := Status.critical,
          available := false, details := "Ping timeout", critical := false }]
      ∧ (generate_json_output s₂.results).overall_status
          = (generate_json_output [
        { name := "Backup Server", type := "ping", status := Status.critical,
          available := false, details := "Ping timeout", critical := false }]).overall_status
      ∧ main_exit_code s₂ = main_exit_code ⟨[
        { name := "Backup Server", type := "ping", status := Status.critical,
          available := false, details := "Ping timeout", critical := false }], 0, 0, 0⟩ := by
  have hrun : run_checks freshState [c9_ep] envDefault = Except.ok ⟨[
      { name := "Backup Server", type := "ping", status := Status.critical,
        available := false, details := "Ping timeout", critical := false }], 0, 0, 0⟩ := rfl
  exact ⟨hrun, c9_stateless_rerun [c9_ep] envDefault _ hrun⟩

end NetworkHealthMonitor
